import Mathlib

/-!
Shallow embedding of the nestjs-clickhouse module (TypeScript sources under
`lib/`) and proofs about it.

The embedded functions follow the source files:
* `lib/common/clickhouse.utils.ts` — `getConnectionToken`, `handleRetry`
* `lib/clickhouse-core.module.ts` — `forRoot`, `forRootAsync`,
  `createClickHouseClient`, `createAsyncProviders`,
  `createAsyncOptionsProvider`, `onApplicationShutdown`
* `lib/common/clickhouse.decorators.ts` — `InjectClickHouse`

The rxjs `retry({count, delay})` operator used by `handleRetry` is embedded
by `retryGo`/`runRetry` below, following the operator's documented
semantics: `count` is the maximum number of RE-subscriptions (so a source
failing forever is subscribed `count + 1` times in total); on the i-th
error (1-based), if fewer than `count` errors have occurred before it, the
`delay` callback is invoked with the error and the 1-based error count and
the source is re-subscribed after the returned timer; the error that
exceeds the budget is propagated to the caller without invoking the
`delay` callback; `retry` with `count = 0` behaves as the identity
operator. Effects (log lines, waits) are made explicit in a trace.
-/

deriving instance DecidableEq for Except

/-- Modelled from the spec: the file `clickhouse.constants.ts` is not among
the provided sources; the default connection name it exports is documented
in `clickhouse-module-options.interface.ts` (JSDoc default
`'DefaultClickHouseConnection'`) and in the README. -/
def DEFAULT_CONNECTION_NAME : String := "DefaultClickHouseConnection"

/-- Embedding of `getConnectionToken` (`lib/common/clickhouse.utils.ts`):
`undefined` is `none`; a name equal to the default sentinel, or no name,
yields the sentinel itself; any other name gets the suffix
`ClickHouseConnection` appended. -/
def getConnectionToken : Option String → String
  | none => DEFAULT_CONNECTION_NAME
  | some name =>
    if name = DEFAULT_CONNECTION_NAME then DEFAULT_CONNECTION_NAME
    else name ++ "ClickHouseConnection"

/-- Embedding of the `HandleRetryOptions` interface: every field is
optional (`undefined` is `none`). -/
structure HandleRetryOptions where
  connectionName : Option String := none
  retryAttempts : Option Nat := none
  retryDelay : Option Nat := none
  verboseRetryLog : Option Bool := none
deriving DecidableEq

/-- The effective values after the defaulting destructuring at the top of
`handleRetry`. -/
structure ResolvedRetryOptions where
  connectionName : String
  retryAttempts : Nat
  retryDelay : Nat
  verboseRetryLog : Bool
deriving DecidableEq

/-- Embedding of the destructuring-with-defaults in `handleRetry`:
`connectionName = DEFAULT_CONNECTION_NAME`, `retryAttempts = 10`,
`retryDelay = 3000`, `verboseRetryLog = false`. -/
def handleRetryResolve (options : HandleRetryOptions) : ResolvedRetryOptions :=
  { connectionName := options.connectionName.getD DEFAULT_CONNECTION_NAME,
    retryAttempts := options.retryAttempts.getD 10,
    retryDelay := options.retryDelay.getD 3000,
    verboseRetryLog := options.verboseRetryLog.getD false }

/-- The exact log line built inside the `delay` callback of `handleRetry`
for the given connection name, verbosity, error message and 1-based error
count. -/
def retryLogLine (connectionName : String) (verbose : Bool)
    (errMessage : String) (errorCount : Nat) : String :=
  let connectionInfo :=
    if connectionName = DEFAULT_CONNECTION_NAME then ""
    else " (" ++ connectionName ++ ")"
  let verboseMessage :=
    if verbose then " Message: " ++ errMessage ++ "." else ""
  "Unable to connect to ClickHouse" ++ connectionInfo ++ "." ++
    verboseMessage ++ " Retrying (" ++ toString errorCount ++ ")..."

/-- Observable trace of one run of the retried source: how many times the
source was subscribed, which retry log lines were emitted (in order),
which delays were waited (in order), and the final outcome (`Except.error`
models the error propagating to the subscriber). -/
structure RetryTrace (α : Type) where
  attempts : Nat
  logs : List String
  delays : List Nat
  result : Except String α
deriving DecidableEq

/-- One step of the rxjs `retry` loop as configured by `handleRetry`.
`probe j` is the outcome of subscription number `j + 1` to the source;
`i` is the 0-based index of the current subscription and `left` the number
of retries still allowed (initially the `count`). On success the value is
returned; on an error with no retries left the error propagates; otherwise
the `delay` callback logs `retryLogLine … (i + 1)` (the 1-based error
count), the configured delay is waited, and the source is re-subscribed. -/
def retryGo (probe : Nat → Except String α) (cn : String) (v : Bool)
    (d : Nat) : Nat → Nat → RetryTrace α
  | i, 0 =>
    match probe i with
    | .ok a => ⟨1, [], [], .ok a⟩
    | .error e => ⟨1, [], [], .error e⟩
  | i, l + 1 =>
    match probe i with
    | .ok a => ⟨1, [], [], .ok a⟩
    | .error e =>
      let r := retryGo probe cn v d (i + 1) l
      ⟨r.attempts + 1, retryLogLine cn v e (i + 1) :: r.logs,
        d :: r.delays, r.result⟩

/-- Embedding of `source.pipe(handleRetry(options))` run to completion:
resolve the defaults, then run the retry loop with `retryAttempts` as the
retry budget. -/
def runRetry (probe : Nat → Except String α)
    (options : HandleRetryOptions) : RetryTrace α :=
  let resolved := handleRetryResolve options
  retryGo probe resolved.connectionName resolved.verboseRetryLog
    resolved.retryDelay 0 resolved.retryAttempts

/-- Result of one `client.ping()` call: the vendor client resolves with a
success flag and an optional error, whose message is optional
(`result.error?.message`). -/
structure PingResult where
  success : Bool
  errorMessage : Option String
deriving DecidableEq

/-- An opaque client handle; `closeResult` is the behaviour of its
`close()` method (`Except.error` models a rejected close). -/
structure ClientHandle where
  id : Nat := 0
  closeResult : Except String Unit := .ok ()
deriving DecidableEq

/-- Whether a ping outcome counts as a failed probe in
`createClickHouseClient` (a rejected ping, or a resolved ping with
`success` false). -/
def pingFailed : Except String PingResult → Bool
  | .error _ => true
  | .ok r => !r.success

/-- Whether a ping outcome lets `createClickHouseClient` return the
handle. -/
def pingSucceeded : Except String PingResult → Bool
  | .error _ => false
  | .ok r => r.success

/-- The message of the error thrown for a failed probe: a rejected ping
throws its own message; a resolved unsuccessful ping throws
`new Error(result.error?.message)`, whose message is the empty string when
`result.error?.message` is `undefined`. -/
def pingFailureMessage : Except String PingResult → String
  | .error m => m
  | .ok r => r.errorMessage.getD ""

/-- The deferred body of `createClickHouseClient`: ping the (already
constructed) client; on success yield the client, otherwise throw. -/
def pingProbe (client : ClientHandle)
    (ping : Nat → Except String PingResult) : Nat → Except String ClientHandle :=
  fun i =>
    match ping i with
    | .error m => .error m
    | .ok r => if r.success then .ok client else .error (r.errorMessage.getD "")

/-- Embedding of `ClickHouseCoreModule.createClickHouseClient`: the client
is constructed once by `createClient`; the deferred ping-verification
block is then piped through `handleRetry(retryOptions)`. `ping i` is the
outcome of the ping issued by subscription number `i + 1`. -/
def createClickHouseClient (client : ClientHandle)
    (retryOptions : HandleRetryOptions)
    (ping : Nat → Except String PingResult) : RetryTrace ClientHandle :=
  runRetry (pingProbe client ping) retryOptions

/-- Embedding of `ClickHouseClientConfigOptions`, the vendor-specific
configuration passed through to `createClient` (opaque to this module;
the fields shown are the ones the README exercises). -/
structure ClickHouseClientConfigOptions where
  url : Option String := none
  username : Option String := none
  password : Option String := none
  database : Option String := none
deriving DecidableEq

/-- Embedding of `ClickHouseModuleOptions`: the vendor configuration plus
the module-specific `name`, `retryAttempts`, `retryDelay`,
`verboseRetryLog` fields, all optional. -/
structure ClickHouseModuleOptions where
  name : Option String := none
  retryAttempts : Option Nat := none
  retryDelay : Option Nat := none
  verboseRetryLog : Option Bool := none
  clientConfig : ClickHouseClientConfigOptions := {}
deriving DecidableEq

/-- The argument object a connection provider passes to `createClient`
after its rest-destructuring: the vendor configuration together with a
possible leftover `name` key (`none` when the `name` field was stripped by
the destructuring, `some _` when it was left in the rest object). -/
structure CreateClientArg where
  name : Option String
  config : ClickHouseClientConfigOptions
deriving DecidableEq

/-- What `ClickHouseCoreModule.forRoot` wires for the connection provider:
the token it is provided under and the two arguments its factory hands to
`createClickHouseClient`. -/
structure ConnectionProviderModel where
  provide : String
  clientArg : CreateClientArg
  retryOptions : HandleRetryOptions
deriving DecidableEq

/-- Embedding of `ClickHouseCoreModule.forRoot`: the destructuring
`const { name, retryAttempts, retryDelay, verboseRetryLog, ...clientOptions }`
strips all four module-specific fields, the provider token is
`getConnectionToken(name)`, and the retry options carry the resolved
connection name together with the raw optional retry fields. -/
def forRoot (options : ClickHouseModuleOptions) : ConnectionProviderModel :=
  let connectionName := getConnectionToken options.name
  { provide := connectionName,
    clientArg := { name := none, config := options.clientConfig },
    retryOptions :=
      { connectionName := some connectionName,
        retryAttempts := options.retryAttempts,
        retryDelay := options.retryDelay,
        verboseRetryLog := options.verboseRetryLog } }

/-- Embedding of the connection provider factory inside
`ClickHouseCoreModule.forRootAsync`: its destructuring
`const { retryAttempts, retryDelay, verboseRetryLog, ...clientOptions }`
strips only the three retry fields, so a `name` field present on the
resolved module options stays in the rest object handed to
`createClient`. -/
def forRootAsyncConnectionFactory (connectionName : String)
    (moduleOptions : ClickHouseModuleOptions) :
    CreateClientArg × HandleRetryOptions :=
  ({ name := moduleOptions.name, config := moduleOptions.clientConfig },
   { connectionName := some connectionName,
     retryAttempts := moduleOptions.retryAttempts,
     retryDelay := moduleOptions.retryDelay,
     verboseRetryLog := moduleOptions.verboseRetryLog })

/-- Injection tokens appearing in the providers built by
`forRootAsync`. `undef` is the runtime value `undefined` produced by the
non-null assertion `options.useClass!` when `useClass` was not supplied. -/
inductive ProviderToken where
  | connectionNameToken
  | moduleOptionsToken
  | classToken (name : String)
  | undef
deriving DecidableEq

/-- The implementation slot of an async provider: the user factory
function, the delegation `(factory) => factory.createClickHouseOptions()`,
or `useClass` instantiation of an optionally-present class. -/
inductive AsyncProviderImpl where
  | factoryFn
  | delegateCreateOptions
  | useClassImpl (name : Option String)

/-- A provider as produced by `createAsyncProviders` /
`createAsyncOptionsProvider`: its token, implementation, and the tokens it
asks the host container to inject. -/
structure AsyncProvider where
  provide : ProviderToken
  impl : AsyncProviderImpl
  inject : List ProviderToken

/-- Embedding of `ClickHouseModuleAsyncOptions`: `useExisting` and
`useClass` are class references (identified here by name), `useFactory` a
function, `inject` a token list; each may be absent. -/
structure ClickHouseModuleAsyncOptions where
  name : Option String := none
  useExisting : Option String := none
  useClass : Option String := none
  useFactory : Option (Unit → ClickHouseModuleOptions) := none
  inject : Option (List ProviderToken) := none

/-- Embedding of `ClickHouseCoreModule.createAsyncOptionsProvider`: with a
factory, the options provider runs it with `options.inject || []`;
otherwise it delegates to `createClickHouseOptions()` on an instance
injected by the token `options.useExisting || options.useClass!` — which
is the runtime value `undefined` when neither was supplied. -/
def createAsyncOptionsProvider
    (options : ClickHouseModuleAsyncOptions) : AsyncProvider :=
  match options.useFactory with
  | some _ =>
    { provide := .moduleOptionsToken,
      impl := .factoryFn,
      inject := options.inject.getD [] }
  | none =>
    { provide := .moduleOptionsToken,
      impl := .delegateCreateOptions,
      inject := [match options.useExisting with
        | some e => .classToken e
        | none =>
          match options.useClass with
          | some c => .classToken c
          | none => .undef] }

/-- Embedding of `ClickHouseCoreModule.createAsyncProviders`: with
`useExisting` or `useFactory` present, only the options provider is
returned; otherwise a `useClass` provider is added whose token is
`options.useClass!` — the runtime value `undefined` when `useClass` was
not supplied either. -/
def createAsyncProviders
    (options : ClickHouseModuleAsyncOptions) : List AsyncProvider :=
  if options.useExisting.isSome || options.useFactory.isSome then
    [createAsyncOptionsProvider options]
  else
    [createAsyncOptionsProvider options,
     { provide := match options.useClass with
         | some c => .classToken c
         | none => .undef,
       impl := .useClassImpl options.useClass,
       inject := [] }]

/-- Whether a token is the runtime value `undefined`. -/
def isUndefToken : ProviderToken → Bool
  | .undef => true
  | _ => false

/-- Whether a provider references `undefined` where the host container
expects an injection token (as its own token or among its dependencies).
The host framework resolves provider tokens when the module is
registered, before any provider factory body runs, and cannot resolve the
token `undefined`; a provider list containing such a reference therefore
fails at wiring time, before any connection attempt. -/
def providerHasUndefToken (p : AsyncProvider) : Bool :=
  isUndefToken p.provide || p.inject.any isUndefToken

/-- The registration produced by `forRootAsync` contains a provider whose
wiring cannot be resolved. -/
def wiringFault (options : ClickHouseModuleAsyncOptions) : Bool :=
  (createAsyncProviders options).any providerHasUndefToken

/-- What `ClickHouseCoreModule.forRootAsync` wires: the connection
provider token, the factory mapping the resolved module options to the
`createClient` argument and retry options, and the async option
providers. -/
structure ForRootAsyncModel where
  provide : String
  connectionFactory : ClickHouseModuleOptions → CreateClientArg × HandleRetryOptions
  providers : List AsyncProvider

/-- Embedding of `ClickHouseCoreModule.forRootAsync`. -/
def forRootAsync (options : ClickHouseModuleAsyncOptions) : ForRootAsyncModel :=
  let connectionName := getConnectionToken options.name
  { provide := connectionName,
    connectionFactory := forRootAsyncConnectionFactory connectionName,
    providers := createAsyncProviders options }

/-- The injection marker produced by the `Inject(token)` decorator. -/
structure InjectMarker where
  token : String
deriving DecidableEq

/-- Embedding of `InjectClickHouse` (`lib/common/clickhouse.decorators.ts`):
`Inject(getConnectionToken(name))`. -/
def InjectClickHouse (name : Option String) : InjectMarker :=
  { token := getConnectionToken name }

/-- Observable trace of one run of `onApplicationShutdown` for one module
instance: the log lines emitted, the number of `close()` calls made, and
the outcome of the hook (`Except.error` models the rejection of the
returned promise propagating to the host). -/
structure ShutdownTrace where
  logs : List String
  closeCalls : Nat
  result : Except String Unit
deriving DecidableEq

/-- The log line emitted before closing a connection. -/
def closingLogLine (connectionName : String) : String :=
  "Closing ClickHouse connection (" ++ connectionName ++ ")"

/-- Embedding of `ClickHouseCoreModule.onApplicationShutdown`: look the
client handle up under the module's connection name (`moduleRef` maps
tokens to the handles that were successfully created; `none` models a
falsy lookup result); if present, log the closure line and call `close()`
once, with no surrounding try/catch — a rejected close rejects the hook's
promise; if absent, do nothing and resolve. -/
def onApplicationShutdown (moduleRef : String → Option ClientHandle)
    (connectionName : String) : ShutdownTrace :=
  match moduleRef connectionName with
  | none => { logs := [], closeCalls := 0, result := .ok () }
  | some client =>
    { logs := [closingLogLine connectionName],
      closeCalls := 1,
      result := client.closeResult }

/-! ## Helper lemmas -/

theorem pingProbe_error (client : ClientHandle)
    (ping : Nat → Except String PingResult) (i : Nat)
    (h : pingFailed (ping i) = true) :
    pingProbe client ping i = Except.error (pingFailureMessage (ping i)) := by
  cases hp : ping i with
  | error m => simp [pingProbe, pingFailureMessage, hp]
  | ok r =>
    simp only [pingFailed, hp, Bool.not_eq_true'] at h
    simp [pingProbe, pingFailureMessage, hp, h]

theorem pingProbe_ok (client : ClientHandle)
    (ping : Nat → Except String PingResult) (i : Nat)
    (h : pingSucceeded (ping i) = true) :
    pingProbe client ping i = Except.ok client := by
  cases hp : ping i with
  | error m => simp [pingSucceeded, hp] at h
  | ok r =>
    simp only [pingSucceeded, hp] at h
    simp [pingProbe, hp, h]

theorem retryGo_all_fail {α : Type} (probe : Nat → Except String α)
    (cn : String) (v : Bool) (d : Nat) (msg : Nat → String) :
    ∀ (left i : Nat), (∀ j, i ≤ j → j ≤ i + left → probe j = Except.error (msg j)) →
      retryGo probe cn v d i left =
        { attempts := left + 1,
          logs := (List.range' i left).map
            (fun j => retryLogLine cn v (msg j) (j + 1)),
          delays := List.replicate left d,
          result := Except.error (msg (i + left)) } := by
  intro left
  induction left with
  | zero =>
    intro i h
    have hp : probe i = Except.error (msg i) := h i (Nat.le_refl i) (by omega)
    simp [retryGo, hp]
  | succ l ih =>
    intro i h
    have hp : probe i = Except.error (msg i) := h i (Nat.le_refl i) (by omega)
    have hr := ih (i + 1) (fun j hj1 hj2 => h j (by omega) (by omega))
    have hidx : i + 1 + l = i + (l + 1) := by omega
    simp [retryGo, hp, hr, hidx, List.range'_succ, List.replicate_succ]

theorem retryGo_succeeds {α : Type} (probe : Nat → Except String α)
    (cn : String) (v : Bool) (d : Nat) (msg : Nat → String) (k : Nat) (a : α)
    (hk : ∀ j, j < k → probe j = Except.error (msg j))
    (hs : probe k = Except.ok a) :
    ∀ (left i : Nat), i ≤ k → k ≤ i + left →
      retryGo probe cn v d i left =
        { attempts := k - i + 1,
          logs := (List.range' i (k - i)).map
            (fun j => retryLogLine cn v (msg j) (j + 1)),
          delays := List.replicate (k - i) d,
          result := Except.ok a } := by
  intro left
  induction left with
  | zero =>
    intro i h1 h2
    have hik : i = k := by omega
    subst hik
    simp [retryGo, hs]
  | succ l ih =>
    intro i h1 h2
    rcases Nat.lt_or_ge i k with hik | hik
    · have hp : probe i = Except.error (msg i) := hk i hik
      have hr := ih (i + 1) (by omega) (by omega)
      have hsub : k - i = (k - (i + 1)) + 1 := by omega
      simp [retryGo, hp, hr, hsub, List.range'_succ, List.replicate_succ]
    · have hik' : i = k := by omega
      subst hik'
      simp [retryGo, hs]

/-! ## Claim theorems -/

/-- C1 counterexample: with `retryAttempts = 1` and a probe that always
fails, the factory makes 2 probe attempts, not `retryAttempts = 1` as the
claim states — rxjs `retry` makes the initial attempt plus
`retryAttempts` retries. -/
theorem C1_exhaustion_counterexample :
    (createClickHouseClient {} { retryAttempts := some 1 }
      (fun _ => Except.error "connect ECONNREFUSED")).attempts = 2 ∧
    (1 : Nat) ≠ 2 := by
  exact ⟨rfl, by decide⟩

/-- C1 (amended): for every configuration whose liveness probe always
fails, the factory makes exactly `retryAttempts + 1` probe attempts (the
initial attempt plus `retryAttempts` retries, logging one retry line per
retry), then raises the fatal error carrying the final probe fault's
message, and never returns a handle. -/
theorem C1_retry_exhaustion (client : ClientHandle)
    (options : HandleRetryOptions) (ping : Nat → Except String PingResult)
    (hfail : ∀ i, pingFailed (ping i) = true) :
    (createClickHouseClient client options ping).attempts =
      (handleRetryResolve options).retryAttempts + 1 ∧
    (createClickHouseClient client options ping).logs.length =
      (handleRetryResolve options).retryAttempts ∧
    (createClickHouseClient client options ping).result =
      Except.error (pingFailureMessage (ping (handleRetryResolve options).retryAttempts)) ∧
    ∀ h : ClientHandle,
      (createClickHouseClient client options ping).result ≠ Except.ok h := by
  have hall := retryGo_all_fail (pingProbe client ping)
    (handleRetryResolve options).connectionName
    (handleRetryResolve options).verboseRetryLog
    (handleRetryResolve options).retryDelay
    (fun i => pingFailureMessage (ping i))
    (handleRetryResolve options).retryAttempts 0
    (fun j _ _ => pingProbe_error client ping j (hfail j))
  have hrun : createClickHouseClient client options ping =
      retryGo (pingProbe client ping)
        (handleRetryResolve options).connectionName
        (handleRetryResolve options).verboseRetryLog
        (handleRetryResolve options).retryDelay 0
        (handleRetryResolve options).retryAttempts := rfl
  rw [hrun, hall]
  refine ⟨rfl, by simp, by simp, by simp⟩

/-- C1 witness: concrete instance of the amended theorem with
`retryAttempts = 2` and an always-rejecting ping: 3 probe attempts, 2
retry log lines, fatal error with the fault's message, no handle. -/
theorem C1_retry_exhaustion_witness :
    (∀ i : Nat, pingFailed ((fun _ => Except.error "boom") i) = true) ∧
    (createClickHouseClient {} { retryAttempts := some 2 }
      (fun _ => Except.error "boom")).attempts = 3 ∧
    (createClickHouseClient {} { retryAttempts := some 2 }
      (fun _ => Except.error "boom")).result = Except.error "boom" := by
  have h := C1_retry_exhaustion {} { retryAttempts := some 2 }
    (fun _ => Except.error "boom") (fun _ => rfl)
  exact ⟨fun _ => rfl, h.1, h.2.2.1⟩

/-- C2: for every configuration and every `k < retryAttempts`, if the
liveness probe fails exactly `k` times and then succeeds, the factory
returns the verified handle after exactly `k + 1` probe attempts (the
subscriptions of the deferred construction-verification block) and emits
exactly `k` logged retry events. -/
theorem C2_retry_then_success (client : ClientHandle)
    (options : HandleRetryOptions) (ping : Nat → Except String PingResult)
    (k : Nat) (hk : ∀ i, i < k → pingFailed (ping i) = true)
    (hs : pingSucceeded (ping k) = true)
    (hlt : k < (handleRetryResolve options).retryAttempts) :
    (createClickHouseClient client options ping).attempts = k + 1 ∧
    (createClickHouseClient client options ping).logs.length = k ∧
    (createClickHouseClient client options ping).result = Except.ok client := by
  have hsucc := retryGo_succeeds (pingProbe client ping)
    (handleRetryResolve options).connectionName
    (handleRetryResolve options).verboseRetryLog
    (handleRetryResolve options).retryDelay
    (fun i => pingFailureMessage (ping i)) k client
    (fun j hj => pingProbe_error client ping j (hk j hj))
    (pingProbe_ok client ping k hs)
    (handleRetryResolve options).retryAttempts 0
    (Nat.zero_le k) (by omega)
  have hrun : createClickHouseClient client options ping =
      retryGo (pingProbe client ping)
        (handleRetryResolve options).connectionName
        (handleRetryResolve options).verboseRetryLog
        (handleRetryResolve options).retryDelay 0
        (handleRetryResolve options).retryAttempts := rfl
  rw [hrun, hsucc]
  refine ⟨by simp, by simp, rfl⟩

/-- C2 witness: concrete instance with the default configuration and a
ping failing once then succeeding: 2 probe attempts, 1 logged retry, the
handle is returned. -/
theorem C2_retry_then_success_witness :
    (∀ i, i < 1 → pingFailed ((fun j => if j = 0
        then Except.error "connect ECONNREFUSED"
        else Except.ok { success := true, errorMessage := none }) i) = true) ∧
    (1 < (handleRetryResolve {}).retryAttempts) ∧
    (createClickHouseClient { id := 7 } {}
      (fun j => if j = 0 then Except.error "connect ECONNREFUSED"
        else Except.ok { success := true, errorMessage := none })).attempts = 2 ∧
    (createClickHouseClient { id := 7 } {}
      (fun j => if j = 0 then Except.error "connect ECONNREFUSED"
        else Except.ok { success := true, errorMessage := none })).result =
      Except.ok { id := 7 } := by
  have h := C2_retry_then_success { id := 7 } {}
    (fun j => if j = 0 then Except.error "connect ECONNREFUSED"
      else Except.ok { success := true, errorMessage := none })
    1 (by decide) (by decide) (by decide)
  exact ⟨by decide, by decide, h.1, h.2.2⟩

/-- C3: omitting `retryAttempts`, `retryDelay` or `verboseRetryLog` makes
the retry logic use the defaults 10, 3000 ms and non-verbose
respectively. -/
theorem C3_retry_defaults (options : HandleRetryOptions) :
    (options.retryAttempts = none →
      (handleRetryResolve options).retryAttempts = 10) ∧
    (options.retryDelay = none →
      (handleRetryResolve options).retryDelay = 3000) ∧
    (options.verboseRetryLog = none →
      (handleRetryResolve options).verboseRetryLog = false) := by
  refine ⟨fun h => ?_, fun h => ?_, fun h => ?_⟩ <;>
    simp [handleRetryResolve, h]

/-- C3 witness: the empty options record omits all three fields and
resolves to the stated defaults. -/
theorem C3_retry_defaults_witness :
    (handleRetryResolve {}).retryAttempts = 10 ∧
    (handleRetryResolve {}).retryDelay = 3000 ∧
    (handleRetryResolve {}).verboseRetryLog = false :=
  ⟨(C3_retry_defaults {}).1 rfl, (C3_retry_defaults {}).2.1 rfl,
    (C3_retry_defaults {}).2.2 rfl⟩

/-- C4 counterexample: the name "Default" is distinct from the default
sentinel, yet resolves to the very same identifier as no name at all —
"Default" ++ "ClickHouseConnection" is the default identifier. So it is
false that every non-default name maps to an identifier distinct from the
default identifier. -/
theorem C4_token_counterexample :
    "Default" ≠ DEFAULT_CONNECTION_NAME ∧
    getConnectionToken (some "Default") = getConnectionToken none := by
  exact ⟨by decide, by decide⟩

/-- C4 (amended): no name and the sentinel name both resolve to the
default identifier; the mapping restricted to non-default names is
injective; but a non-default name hits the default identifier exactly
when it is "Default" — for every other non-default name the resolved
identifier is distinct from the default one. -/
theorem C4_token_mapping (n n1 n2 : String)
    (hn : n ≠ DEFAULT_CONNECTION_NAME)
    (h1 : n1 ≠ DEFAULT_CONNECTION_NAME)
    (h2 : n2 ≠ DEFAULT_CONNECTION_NAME) :
    getConnectionToken none = DEFAULT_CONNECTION_NAME ∧
    getConnectionToken (some DEFAULT_CONNECTION_NAME) = DEFAULT_CONNECTION_NAME ∧
    (getConnectionToken (some n1) = getConnectionToken (some n2) ↔ n1 = n2) ∧
    (getConnectionToken (some n) = DEFAULT_CONNECTION_NAME ↔ n = "Default") := by
  have cancel : ∀ a b : String, a ++ "ClickHouseConnection" = b ++ "ClickHouseConnection" → a = b := by
    intro a b h
    have hd := congrArg String.data h
    simp only [String.data_append] at hd
    exact String.ext (List.append_cancel_right hd)
  have hdflt : DEFAULT_CONNECTION_NAME = "Default" ++ "ClickHouseConnection" := by decide
  refine ⟨rfl, by simp [getConnectionToken], ?_, ?_⟩
  · constructor
    · intro h
      simp only [getConnectionToken, if_neg h1, if_neg h2] at h
      exact cancel n1 n2 h
    · intro h
      rw [h]
  · constructor
    · intro h
      simp only [getConnectionToken, if_neg hn] at h
      rw [hdflt] at h
      exact cancel n "Default" h
    · intro h
      subst h
      simp only [getConnectionToken, if_neg hn]
      exact hdflt.symm

/-- C4 witness: concrete instance — "a" and "b" resolve injectively, and
the non-default name "logs" resolves to the default identifier iff it is
"Default" (it is not). -/
theorem C4_token_mapping_witness :
    ("logs" ≠ DEFAULT_CONNECTION_NAME ∧ "a" ≠ DEFAULT_CONNECTION_NAME ∧
      "b" ≠ DEFAULT_CONNECTION_NAME) ∧
    (getConnectionToken (some "a") = getConnectionToken (some "b") ↔ "a" = "b") ∧
    (getConnectionToken (some "logs") = DEFAULT_CONNECTION_NAME ↔ "logs" = "Default") :=
  ⟨⟨by decide, by decide, by decide⟩,
    (C4_token_mapping "logs" "a" "b" (by decide) (by decide) (by decide)).2.2.1,
    (C4_token_mapping "logs" "a" "b" (by decide) (by decide) (by decide)).2.2.2⟩

/-- C5: the synchronous path strips the name field before calling
`createClient`, but the asynchronous path's destructuring removes only
`retryAttempts`, `retryDelay` and `verboseRetryLog` — a `name` field on
the factory-resolved options is passed through to `createClient`
unstripped. Evaluated at the failing input: a `forRootAsync` registration
whose resolved options carry `name = "logs"`. -/
theorem C5_forRootAsync_name_not_stripped :
    (∀ options : ClickHouseModuleOptions,
      (forRoot options).clientArg.name = none) ∧
    (∀ (cn : String) (moduleOptions : ClickHouseModuleOptions),
      (forRootAsyncConnectionFactory cn moduleOptions).1.name = moduleOptions.name) ∧
    ((forRootAsync { name := some "logs" }).connectionFactory
      { name := some "logs", retryAttempts := some 5,
        clientConfig := { url := some "http://localhost:8123" } }).1.name = some "logs" :=
  ⟨fun _ => rfl, fun _ _ => rfl, rfl⟩

/-- C6 counterexample: a connection whose handle's `close()` rejects with
"socket hang up": the shutdown hook's promise rejects (the failure
propagates to the host instead of being swallowed), and the only log line
emitted is the pre-close closure line — the failure itself is never
logged. This contradicts the claim that a close failure is logged and
does not propagate. -/
theorem C6_close_failure_counterexample :
    (onApplicationShutdown
      (fun _ => some { closeResult := Except.error "socket hang up" })
      DEFAULT_CONNECTION_NAME).result ≠ Except.ok () ∧
    (onApplicationShutdown
      (fun _ => some { closeResult := Except.error "socket hang up" })
      DEFAULT_CONNECTION_NAME).logs =
      [closingLogLine DEFAULT_CONNECTION_NAME] := by
  exact ⟨by simp [onApplicationShutdown, closingLogLine], rfl⟩

/-- C6 (amended): there is no catch around `close()`: when a handle is
present, the shutdown hook's outcome is exactly the outcome of `close()`
— a close failure rejects the hook's promise and propagates to the host —
and the only log line emitted is the pre-close closure line; no failure
is logged. -/
theorem C6_close_failure_propagates
    (moduleRef : String → Option ClientHandle) (connectionName : String)
    (client : ClientHandle) (h : moduleRef connectionName = some client) :
    (onApplicationShutdown moduleRef connectionName).result = client.closeResult ∧
    (onApplicationShutdown moduleRef connectionName).logs =
      [closingLogLine connectionName] := by
  simp [onApplicationShutdown, h]

/-- C6 witness: concrete instance — a registry holding a handle whose
close rejects with "x"; the hook's outcome is that same rejection. -/
theorem C6_close_failure_propagates_witness :
    ((fun _ : String => some ({ closeResult := Except.error "x" } : ClientHandle))
      DEFAULT_CONNECTION_NAME = some { closeResult := Except.error "x" }) ∧
    (onApplicationShutdown (fun _ => some { closeResult := Except.error "x" })
      DEFAULT_CONNECTION_NAME).result = Except.error "x" :=
  ⟨rfl, (C6_close_failure_propagates
    (fun _ => some { closeResult := Except.error "x" })
    DEFAULT_CONNECTION_NAME { closeResult := Except.error "x" } rfl).1⟩

/-- C7: at shutdown, a handle that was successfully created for the
module's connection name is closed exactly once (with the closure
logged), and when no handle was ever created for that name the hook makes
no close call and raises no fault (it resolves). -/
theorem C7_shutdown_close_once
    (moduleRef : String → Option ClientHandle) (connectionName : String) :
    (∀ client, moduleRef connectionName = some client →
      (onApplicationShutdown moduleRef connectionName).closeCalls = 1 ∧
      (onApplicationShutdown moduleRef connectionName).logs =
        [closingLogLine connectionName]) ∧
    (moduleRef connectionName = none →
      (onApplicationShutdown moduleRef connectionName).closeCalls = 0 ∧
      (onApplicationShutdown moduleRef connectionName).logs = [] ∧
      (onApplicationShutdown moduleRef connectionName).result = Except.ok ()) := by
  constructor
  · intro c h
    simp [onApplicationShutdown, h]
  · intro h
    simp [onApplicationShutdown, h]

/-- C7 witness: concrete instances — an empty registry yields zero close
calls and no fault; a registry holding a healthy handle yields exactly
one close call. -/
theorem C7_shutdown_close_once_witness :
    ((fun _ : String => (none : Option ClientHandle)) DEFAULT_CONNECTION_NAME = none ∧
      (onApplicationShutdown (fun _ => none) DEFAULT_CONNECTION_NAME).closeCalls = 0 ∧
      (onApplicationShutdown (fun _ => none) DEFAULT_CONNECTION_NAME).result = Except.ok ()) ∧
    ((fun _ : String => some ({} : ClientHandle)) DEFAULT_CONNECTION_NAME = some {} ∧
      (onApplicationShutdown (fun _ => some {}) DEFAULT_CONNECTION_NAME).closeCalls = 1) :=
  ⟨⟨rfl, ((C7_shutdown_close_once (fun _ => none) DEFAULT_CONNECTION_NAME).2 rfl).1,
      ((C7_shutdown_close_once (fun _ => none) DEFAULT_CONNECTION_NAME).2 rfl).2.2⟩,
    ⟨rfl, ((C7_shutdown_close_once (fun _ => some {}) DEFAULT_CONNECTION_NAME).1 {} rfl).1⟩⟩

/-- C8: when none of `useFactory`, `useExisting` and `useClass` is
supplied, the providers `forRootAsync` registers reference the runtime
value `undefined` where the host expects an injection token: the options
provider asks to inject the token `undefined`, and the extra `useClass`
provider is provided under the token `undefined`. The host resolves
provider tokens when the module is registered, so this registration fails
at wiring time — before the connection provider factory (and hence any
connection attempt) can run. -/
theorem C8_wiring_fault (options : ClickHouseModuleAsyncOptions)
    (hf : options.useFactory = none) (he : options.useExisting = none)
    (hc : options.useClass = none) :
    (createAsyncOptionsProvider options).inject = [ProviderToken.undef] ∧
    wiringFault options = true := by
  constructor
  · simp [createAsyncOptionsProvider, hf, he, hc]
  · simp [wiringFault, createAsyncProviders, createAsyncOptionsProvider,
      providerHasUndefToken, isUndefToken, hf, he, hc]

/-- C8 witness: the empty async options record supplies none of the three
resolution policies, and its registration is rejected at wiring time. -/
theorem C8_wiring_fault_witness :
    (({} : ClickHouseModuleAsyncOptions).useFactory = none ∧
      ({} : ClickHouseModuleAsyncOptions).useExisting = none ∧
      ({} : ClickHouseModuleAsyncOptions).useClass = none) ∧
    wiringFault {} = true :=
  ⟨⟨rfl, rfl, rfl⟩, (C8_wiring_fault {} rfl rfl rfl).2⟩

/-- C9 counterexample: with `retryAttempts = 1` and a probe that always
fails, there are two failed probe attempts (two subscriptions, final
outcome an error) but only one logged line — the failure that exhausts the
retry budget is propagated without invoking the logging delay callback.
So it is false that every failed probe attempt logs exactly one line. -/
theorem C9_logging_counterexample :
    (runRetry (fun _ => (Except.error "x" : Except String Unit))
      { retryAttempts := some 1 }).attempts = 2 ∧
    (runRetry (fun _ => (Except.error "x" : Except String Unit))
      { retryAttempts := some 1 }).result = Except.error "x" ∧
    (runRetry (fun _ => (Except.error "x" : Except String Unit))
      { retryAttempts := some 1 }).logs =
      [retryLogLine DEFAULT_CONNECTION_NAME false "x" 1] := by
  exact ⟨rfl, rfl, rfl⟩

/-- C9 (amended): every failed probe attempt that is followed by a retry
— i.e. each of the first `min k retryAttempts` failures when the probe
fails on its first `k` attempts — produces exactly one error log line,
namely `retryLogLine` for the 1-based attempt count, which carries the
probe's failure message exactly when verbose logging is enabled; each
such line is followed by one wait of the configured delay. The failure
that exhausts the retry budget logs nothing and waits nothing. -/
theorem C9_retry_logging {α : Type} (options : HandleRetryOptions)
    (probe : Nat → Except String α) (msg : Nat → String) (k : Nat) (a : α)
    (hk : ∀ j, j < k → probe j = Except.error (msg j))
    (hs : probe k = Except.ok a) :
    (runRetry probe options).logs =
      (List.range (min k (handleRetryResolve options).retryAttempts)).map
        (fun j => retryLogLine (handleRetryResolve options).connectionName
          (handleRetryResolve options).verboseRetryLog (msg j) (j + 1)) ∧
    (runRetry probe options).delays =
      List.replicate (min k (handleRetryResolve options).retryAttempts)
        (handleRetryResolve options).retryDelay := by
  have hrun : runRetry probe options = retryGo probe
      (handleRetryResolve options).connectionName
      (handleRetryResolve options).verboseRetryLog
      (handleRetryResolve options).retryDelay 0
      (handleRetryResolve options).retryAttempts := rfl
  rcases le_or_lt k (handleRetryResolve options).retryAttempts with hle | hlt
  · have h := retryGo_succeeds probe
      (handleRetryResolve options).connectionName
      (handleRetryResolve options).verboseRetryLog
      (handleRetryResolve options).retryDelay msg k a hk hs
      (handleRetryResolve options).retryAttempts 0 (Nat.zero_le k) (by omega)
    rw [hrun, h]
    have hmin : min k (handleRetryResolve options).retryAttempts = k :=
      Nat.min_eq_left hle
    simp [hmin, List.range_eq_range']
  · have h := retryGo_all_fail probe
      (handleRetryResolve options).connectionName
      (handleRetryResolve options).verboseRetryLog
      (handleRetryResolve options).retryDelay msg
      (handleRetryResolve options).retryAttempts 0
      (fun j _ h2 => hk j (by omega))
    rw [hrun, h]
    have hmin : min k (handleRetryResolve options).retryAttempts =
        (handleRetryResolve options).retryAttempts :=
      Nat.min_eq_right (Nat.le_of_lt hlt)
    simp [hmin, List.range_eq_range']

/-- C9 witness: concrete instance — one failure then success under
`retryAttempts = 2`: exactly one log line (the line for attempt count 1,
non-verbose so without the probe message) and one wait of the default
3000 ms delay. -/
theorem C9_retry_logging_witness :
    (∀ j, j < 1 → (fun i => if i < 1 then Except.error "e" else Except.ok ()) j =
      Except.error ((fun _ => "e") j)) ∧
    (runRetry (fun i => if i < 1 then Except.error "e" else Except.ok ())
      { retryAttempts := some 2 }).logs =
      [retryLogLine DEFAULT_CONNECTION_NAME false "e" 1] ∧
    (runRetry (fun i => if i < 1 then Except.error "e" else Except.ok ())
      { retryAttempts := some 2 }).delays = [3000] := by
  have h := C9_retry_logging { retryAttempts := some 2 }
    (fun i => if i < 1 then Except.error "e" else Except.ok ())
    (fun _ => "e") 1 () (by decide) (by decide)
  exact ⟨by decide, h.1.trans (by decide), h.2.trans (by decide)⟩

/-- C10: for every connection name (including the omitted case) the
injection marker `InjectClickHouse` carries exactly the token
`getConnectionToken` returns, and this is exactly the token a
registration provides the handle under — the marker form and the manual
token form address the same registered handle. -/
theorem C10_marker_matches_token (name : Option String)
    (options : ClickHouseModuleOptions) :
    (InjectClickHouse name).token = getConnectionToken name ∧
    (forRoot { options with name := name }).provide = getConnectionToken name :=
  ⟨rfl, rfl⟩
